import Mathlib

/-!
Shallow embedding of `src/services/audio_stitcher.py` (the timeline and
ffmpeg filter-graph builder) and proofs about it.

Seconds are modelled as rationals (`ℚ`), standing for the Python floats
returned by `ffprobe`; the fade and silence durations passed by the caller
are Python `int`s and are modelled as `ℕ` where the command strings render
them. The external `get_audio_duration` probe is modelled as an oracle
`dur : String → ℚ` mapping a file path to its duration.
-/

namespace AudioStitcher

/-- Python `int(...)` applied to a number: truncation toward zero. -/
def pyTrunc (q : ℚ) : ℤ :=
  q.num.tdiv (q.den : ℤ)

/-- Python `a // b` on numbers: floor division, `⌊a / b⌋`.  Written on the
numerators and denominators with `Int.fdiv` so that it evaluates. -/
def pyFloorDiv (a b : ℚ) : ℤ :=
  Int.fdiv (a.num * (b.den : ℤ)) ((a.den : ℤ) * b.num)

/-- Python `a % b` on numbers (result has the sign of the divisor). -/
def pyMod (a b : ℚ) : ℚ :=
  a - b * (pyFloorDiv a b : ℚ)

/-- Python `f"{n:02d}"`: decimal rendering of an integer, zero-padded to
width 2. -/
def fmt02 (n : ℤ) : String :=
  if 0 ≤ n ∧ n < 10 then "0" ++ toString n else toString n

/-- `format_timestamp` from `audio_stitcher.py` (lines 25-35): format seconds
into `MM:SS` or `H:MM:SS`.  `int(x // y)` is `⌊x / y⌋` and `int(x % y)` is
`pyTrunc (pyMod x y)`. -/
def format_timestamp (seconds : ℚ) : String :=
  if 3600 ≤ seconds then
    let hours : ℤ := pyFloorDiv seconds 3600
    let minutes : ℤ := pyFloorDiv (pyMod seconds 3600) 60
    let secs : ℤ := pyTrunc (pyMod seconds 60)
    toString hours ++ ":" ++ fmt02 minutes ++ ":" ++ fmt02 secs
  else
    let minutes : ℤ := pyFloorDiv seconds 60
    let secs : ℤ := pyTrunc (pyMod seconds 60)
    fmt02 minutes ++ ":" ++ fmt02 secs

/-- Body of Python `str.title()` over the character list: a letter starts
upper-cased when the previous character was not a letter, and lower-cased
otherwise. -/
def pyTitleGo : List Char → Bool → List Char
  | [], _ => []
  | c :: cs, prevAlpha =>
    (if c.isAlpha then (if prevAlpha then c.toLower else c.toUpper) else c)
      :: pyTitleGo cs c.isAlpha

/-- Python `str.split(sep)` for a one-character separator, over character
lists (`"".split(sep)` is `[""]`, as in Python). -/
def splitOnChar (sep : Char) : List Char → List (List Char)
  | [] => [[]]
  | c :: cs =>
    if c = sep then [] :: splitOnChar sep cs
    else
      match splitOnChar sep cs with
      | [] => [[c]]
      | h :: t => (c :: h) :: t

/-- Python `str.replace(a, b)` for one-character arguments. -/
def replaceChar (a b : Char) (l : List Char) : List Char :=
  l.map (fun c => if c = a then b else c)

/-- Python `sep.join(parts)` over character lists. -/
def joinSep (sep : List Char) : List (List Char) → List Char
  | [] => []
  | [p] => p
  | p :: rest => p ++ sep ++ joinSep sep rest

/-- `os.path.basename`, POSIX flavour: the part after the last `/`. -/
def basenameL (p : List Char) : List Char :=
  (splitOnChar '/' p).getLastD []

/-- The root part of `os.path.splitext`: everything before the last dot,
except that a name whose characters before that dot are all dots is kept
whole. -/
def splitextRoot (s : List Char) : List Char :=
  let rev := s.reverse
  let ext := rev.takeWhile (fun c => c ≠ '.')
  match rev.drop ext.length with
  | [] => s
  | _ :: before =>
    if before.all (fun c => c = '.') then s else before.reverse

/-- Python `str.isdigit()` for ASCII strings. -/
def isdigitL (l : List Char) : Bool :=
  !l.isEmpty && l.all Char.isDigit

/-- Python's `in` on strings, at the character-list level: does `needle`
occur contiguously inside `hay`? -/
def containsSub (needle hay : List Char) : Bool :=
  hay.tails.any (fun t => needle.isPrefixOf t)

/-- The part-filtering loop of `extract_song_title` (lines 48-59); the
`skip_next` flag is carried although the source never sets it. -/
def titlePartsLoop : List (List Char) → Bool → List (List Char)
  | [], _ => []
  | p :: rest, skipNext =>
    if skipNext then titlePartsLoop rest false
    else if p = "table".data || p = "audio".data || p = "lofi".data || isdigitL p
        || (p.length = 6 && isdigitL p) then titlePartsLoop rest false
    else if p.length = 8 && isdigitL p then titlePartsLoop rest false
    else if p.length = 6 && isdigitL p then titlePartsLoop rest false
    else p :: titlePartsLoop rest false

/-- `extract_song_title` from `audio_stitcher.py` (lines 37-65). -/
def extract_song_title (filename : String) : String :=
  let name := splitextRoot (basenameL filename.data)
  if containsSub "table_audio_lofi_".data name then
    let parts := splitOnChar '_' name
    let title_parts := titlePartsLoop parts false
    if !title_parts.isEmpty then
      String.mk (pyTitleGo (replaceChar '_' ' ' (joinSep " ".data title_parts)) false)
    else
      String.mk (pyTitleGo (replaceChar '_' ' ' name) false)
  else
    String.mk (pyTitleGo (replaceChar '_' ' ' name) false)

/-- A timeline entry: one dict of the `timestamps` list built by
`calculate_timestamps`. -/
structure Entry where
  file : String
  title : String
  start_time : ℚ
  duration : ℚ
deriving Repr, DecidableEq

/-- The per-clip loop of `calculate_timestamps` (lines 85-101): emit an
entry at the running time, then advance it by
`duration - fade_duration + silence_duration` (the source's `i == 0` and
`else` branches perform the same update). -/
def calcLoop (dur : String → ℚ) (fade_duration silence_duration : ℚ) :
    List String → ℚ → List Entry
  | [], _ => []
  | f :: rest, t =>
    { file := f, title := extract_song_title f, start_time := t, duration := dur f }
      :: calcLoop dur fade_duration silence_duration rest
          (t + (dur f - fade_duration + silence_duration))

/-- `calculate_timestamps` from `audio_stitcher.py` (lines 67-103).
`producer_tag = some p` stands for a provided path that exists on disk
(`stitch_audio_files` validates existence before calling); `none` stands
for the `None` default. -/
def calculate_timestamps (dur : String → ℚ) (audio_files : List String)
    (fade_duration : ℚ) (silence_duration : ℚ := 0)
    (producer_tag : Option String := none) : List Entry :=
  match producer_tag with
  | some p =>
    { file := p, title := "Producer Tag", start_time := 0, duration := dur p }
      :: calcLoop dur fade_duration silence_duration audio_files (dur p)
  | none => calcLoop dur fade_duration silence_duration audio_files 0

/-- The tracklist-writing loop of `stitch_audio_files` (lines 457-464): one
line per entry, numbering only the entries whose title is not
`"Producer Tag"` with a running 2-padded counter. -/
def trackLinesFrom : List Entry → ℕ → List String
  | [], _ => []
  | ts :: rest, song_counter =>
    if ts.title = "Producer Tag" then
      (format_timestamp ts.start_time ++ " - Producer Tag")
        :: trackLinesFrom rest song_counter
    else
      (format_timestamp ts.start_time ++ " - " ++ fmt02 (song_counter : ℤ)
          ++ ". " ++ ts.title)
        :: trackLinesFrom rest (song_counter + 1)

/-- The per-entry tracklist lines written to the `_tracklist.txt` file (after
its two header lines), starting the song counter at 1. -/
def trackLines (timestamps : List Entry) : List String :=
  trackLinesFrom timestamps 1

/-- The glob patterns of line 134, as file-name suffixes. -/
def audio_extensions : List String :=
  [".mp3", ".wav", ".m4a", ".flac", ".aac"]

/-- Does a path match the glob pattern for the given extension? -/
def matchesExt (ext : String) (f : String) : Bool :=
  ext.data.isSuffixOf f.data

/-- The file-collection loop of `stitch_audio_files` (lines 134-139): for
each extension in order, the files of the folder listing matching it, all
concatenated.  `listing` is the folder's contents in the order the OS
happens to enumerate them (the order `glob.glob` sees). -/
def collectAudioFiles (listing : List String) : List String :=
  (audio_extensions.map (fun ext => listing.filter (fun f => matchesExt ext f))).flatten

/-- The collected audio files after the `audio_files.sort()` of line 146. -/
def sortedAudioFiles (listing : List String) : List String :=
  (collectAudioFiles listing).mergeSort (fun a b => a ≤ b)

/-- The `delay_ms` values computed by the no-producer-tag, `silence > 0`,
three-or-more-clips branch of `stitch_audio_files` (lines 368-381): the
first clip gets no `adelay` (only `apad`, hence `none`); each later clip is
delayed by `int(current_time * 1000)` where `current_time` is set to
`duration + silence_duration` after the first clip and advanced by
`duration - fade_duration + silence_duration` after each later clip. -/
def noIntroSilenceDelays (dur : String → ℚ) (fade_duration silence_duration : ℕ) :
    List String → ℚ → ℕ → List (Option ℤ)
  | [], _, _ => []
  | f :: rest, t, i =>
    if i = 0 then
      none :: noIntroSilenceDelays dur fade_duration silence_duration rest
        (dur f + (silence_duration : ℚ)) (i + 1)
    else
      some (pyTrunc (t * 1000))
        :: noIntroSilenceDelays dur fade_duration silence_duration rest
          (t + (dur f - (fade_duration : ℚ) + (silence_duration : ℚ))) (i + 1)

/-- The `delay_ms` values computed by the producer-tag, `silence > 0`,
three-or-more-clips branch of `stitch_audio_files` (lines 301-314), started
at `t = producer duration`: the first clip is delayed `int(t * 1000)` and
advances `t` by `duration + silence_duration`; each later clip is delayed
`int((t - fade_duration) * 1000)` and advances `t` by
`duration - fade_duration + silence_duration`. -/
def introSilenceDelays (dur : String → ℚ) (fade_duration silence_duration : ℕ) :
    List String → ℚ → ℕ → List ℤ
  | [], _, _ => []
  | f :: rest, t, i =>
    if i = 0 then
      pyTrunc (t * 1000)
        :: introSilenceDelays dur fade_duration silence_duration rest
          (t + (dur f + (silence_duration : ℚ))) (i + 1)
    else
      pyTrunc ((t - (fade_duration : ℚ)) * 1000)
        :: introSilenceDelays dur fade_duration silence_duration rest
          (t + (dur f - (fade_duration : ℚ) + (silence_duration : ℚ))) (i + 1)

/-- Python `sep.join(parts)` for strings (used for `';'.join(filter_parts)`). -/
def joinStr (sep : String) : List String → String
  | [] => ""
  | [p] => p
  | p :: rest => p ++ sep ++ joinStr sep rest

/-- The `filter_parts` strings of the producer-tag, `silence > 0`,
three-or-more-clips branch (lines 301-314); clip `i` is ffmpeg input
`[i+1]` because the producer tag is input `[0]`. -/
def introSilenceParts (dur : String → ℚ) (fade_duration silence_duration : ℕ) :
    List String → ℚ → ℕ → List String
  | [], _, _ => []
  | f :: rest, t, i =>
    if i = 0 then
      let d := toString (pyTrunc (t * 1000))
      ("[" ++ toString (i + 1) ++ "]apad=pad_dur=" ++ toString silence_duration
          ++ "[s" ++ toString i ++ "];[s" ++ toString i ++ "]adelay=" ++ d ++ "|" ++ d
          ++ "[a" ++ toString i ++ "]")
        :: introSilenceParts dur fade_duration silence_duration rest
          (t + (dur f + (silence_duration : ℚ))) (i + 1)
    else
      let d := toString (pyTrunc ((t - (fade_duration : ℚ)) * 1000))
      ("[" ++ toString (i + 1) ++ "]adelay=" ++ d ++ "|" ++ d ++ "[a" ++ toString i ++ "]")
        :: introSilenceParts dur fade_duration silence_duration rest
          (t + (dur f - (fade_duration : ℚ) + (silence_duration : ℚ))) (i + 1)

/-- The `filter_parts` strings of the producer-tag, no-silence,
three-or-more-clips branch (lines 328-341). -/
def introNoSilenceParts (dur : String → ℚ) (fade_duration : ℕ) :
    List String → ℚ → ℕ → List String
  | [], _, _ => []
  | f :: rest, t, i =>
    if i = 0 then
      let d := toString (pyTrunc (t * 1000))
      ("[" ++ toString (i + 1) ++ "]adelay=" ++ d ++ "|" ++ d ++ "[a" ++ toString i ++ "]")
        :: introNoSilenceParts dur fade_duration rest (t + dur f) (i + 1)
    else
      let d := toString (pyTrunc ((t - (fade_duration : ℚ)) * 1000))
      ("[" ++ toString (i + 1) ++ "]adelay=" ++ d ++ "|" ++ d ++ "[a" ++ toString i ++ "]")
        :: introNoSilenceParts dur fade_duration rest (t + (dur f - (fade_duration : ℚ))) (i + 1)

/-- The `filter_parts` strings of the no-producer-tag, `silence > 0`,
three-or-more-clips branch (lines 371-381). -/
def noIntroSilenceParts (dur : String → ℚ) (fade_duration silence_duration : ℕ) :
    List String → ℚ → ℕ → List String
  | [], _, _ => []
  | f :: rest, t, i =>
    if i = 0 then
      ("[" ++ toString i ++ "]apad=pad_dur=" ++ toString silence_duration
          ++ "[a" ++ toString i ++ "]")
        :: noIntroSilenceParts dur fade_duration silence_duration rest
          (dur f + (silence_duration : ℚ)) (i + 1)
    else
      let d := toString (pyTrunc (t * 1000))
      ("[" ++ toString i ++ "]adelay=" ++ d ++ "|" ++ d ++ "[a" ++ toString i ++ "]")
        :: noIntroSilenceParts dur fade_duration silence_duration rest
          (t + (dur f - (fade_duration : ℚ) + (silence_duration : ℚ))) (i + 1)

/-- The `''.join(['[a0]', '[a1]', ...])` stream references (lines 317, 344,
384). -/
def streamRefs (n : ℕ) : String :=
  joinStr "" ((List.range n).map (fun i => "[a" ++ toString i ++ "]"))

/-- One iteration of the pairwise-crossfade chain of lines 400-407. -/
def chainStep (fade_duration : ℕ) (acc : String × String) (i : ℕ) : String × String :=
  (acc.1 ++ acc.2 ++ "[" ++ toString i ++ "]acrossfade=d=" ++ toString fade_duration
      ++ "[cf" ++ toString i ++ "];",
   "[cf" ++ toString i ++ "]")

/-- Python `str.rstrip(';')`: drop every trailing semicolon (line 410). -/
def rstripSemi (s : String) : String :=
  String.mk ((s.data.reverse.dropWhile (fun c => c = ';')).reverse)

/-- The ffmpeg argument list built by `stitch_audio_files` (lines 188-419)
from the sorted audio files, selecting a strategy by clip count, by
`silence_duration > 0`, and by the presence of a producer tag. -/
def build_ffmpeg_cmd (dur : String → ℚ) (audio_files : List String)
    (output_file : String) (fade_duration silence_duration : ℕ)
    (producer_tag : Option String) : List String :=
  let all_inputs :=
    (match producer_tag with | some p => ["-i", p] | none => [])
      ++ audio_files.flatMap (fun f => ["-i", f])
  match audio_files with
  | [a0] =>
    match producer_tag with
    | some _ =>
      if 0 < silence_duration then
        ["ffmpeg"] ++ all_inputs ++
          ["-filter_complex",
           "[0][1]concat=n=2:v=0:a=1[joined];[joined]apad=pad_dur="
             ++ toString silence_duration ++ "[out]",
           "-map", "[out]", "-c:a", "mp3", "-b:a", "320k", "-y", output_file]
      else
        ["ffmpeg"] ++ all_inputs ++
          ["-filter_complex", "[0][1]concat=n=2:v=0:a=1[out]",
           "-map", "[out]", "-c:a", "mp3", "-b:a", "320k", "-y", output_file]
    | none =>
      if 0 < silence_duration then
        ["ffmpeg", "-i", a0,
         "-filter_complex", "[0]apad=pad_dur=" ++ toString silence_duration ++ "[out]",
         "-map", "[out]", "-c:a", "mp3", "-b:a", "320k", "-y", output_file]
      else
        ["ffmpeg", "-i", a0, "-c:a", "mp3", "-b:a", "320k", "-y", output_file]
  | [a0, a1] =>
    match producer_tag with
    | some p =>
      if 0 < silence_duration then
        let song1_delay : ℚ := dur p
        let song2_delay : ℚ :=
          dur p + dur a0 - (fade_duration : ℚ) + (silence_duration : ℚ)
        let d1 := toString (pyTrunc (song1_delay * 1000))
        let d2 := toString (pyTrunc (song2_delay * 1000))
        ["ffmpeg"] ++ all_inputs ++
          ["-filter_complex",
           "[1]apad=pad_dur=" ++ toString silence_duration ++ "[s1];[s1]adelay="
             ++ d1 ++ "|" ++ d1 ++ "[a1];[2]adelay=" ++ d2 ++ "|" ++ d2
             ++ "[a2];[0][a1][a2]amix=inputs=3:duration=longest:normalize=0[mixed];[mixed]dynaudnorm[out]",
           "-map", "[out]", "-c:a", "mp3", "-b:a", "320k", "-y", output_file]
      else
        let song1_delay : ℚ := dur p
        let song2_delay : ℚ := dur p + dur a0 - (fade_duration : ℚ)
        let d1 := toString (pyTrunc (song1_delay * 1000))
        let d2 := toString (pyTrunc (song2_delay * 1000))
        ["ffmpeg"] ++ all_inputs ++
          ["-filter_complex",
           "[1]adelay=" ++ d1 ++ "|" ++ d1 ++ "[a1];[2]adelay=" ++ d2 ++ "|" ++ d2
             ++ "[a2];[0][a1][a2]amix=inputs=3:duration=longest:normalize=0[mixed];[mixed]dynaudnorm[out]",
           "-map", "[out]", "-c:a", "mp3", "-b:a", "320k", "-y", output_file]
    | none =>
      if 0 < silence_duration then
        let d := toString
          (pyTrunc ((dur a0 - (fade_duration : ℚ) + (silence_duration : ℚ)) * 1000))
        ["ffmpeg", "-i", a0, "-i", a1,
         "-filter_complex",
         "[0]apad=pad_dur=" ++ toString silence_duration ++ "[a0];[1]adelay="
           ++ d ++ "|" ++ d
           ++ "[a1];[a0][a1]amix=inputs=2:duration=longest:normalize=0[mixed];[mixed]dynaudnorm[out]",
         "-map", "[out]", "-c:a", "mp3", "-b:a", "320k", "-y", output_file]
      else
        ["ffmpeg", "-i", a0, "-i", a1,
         "-filter_complex", "[0][1]acrossfade=d=" ++ toString fade_duration,
         "-c:a", "mp3", "-b:a", "320k", "-y", output_file]
  | files =>
    match producer_tag with
    | some p =>
      let filter_parts :=
        if 0 < silence_duration then
          introSilenceParts dur fade_duration silence_duration files (dur p) 0
        else
          introNoSilenceParts dur fade_duration files (dur p) 0
      let stream_refs := "[0]" ++ streamRefs files.length
      let total_inputs := files.length + 1
      let filter_complex :=
        joinStr ";" (filter_parts ++
          [stream_refs ++ "amix=inputs=" ++ toString total_inputs
             ++ ":duration=longest:normalize=0[mixed]",
           "[mixed]dynaudnorm[out]"])
      ["ffmpeg"] ++ all_inputs ++
        ["-filter_complex", filter_complex, "-map", "[out]",
         "-c:a", "mp3", "-b:a", "320k", "-y", output_file]
    | none =>
      if 0 < silence_duration then
        let filter_parts :=
          noIntroSilenceParts dur fade_duration silence_duration files 0 0
        let stream_refs := streamRefs files.length
        let filter_complex :=
          joinStr ";" (filter_parts ++
            [stream_refs ++ "amix=inputs=" ++ toString files.length
               ++ ":duration=longest:normalize=0[mixed]",
             "[mixed]dynaudnorm[out]"])
        ["ffmpeg"] ++ files.flatMap (fun f => ["-i", f]) ++
          ["-filter_complex", filter_complex, "-map", "[out]",
           "-c:a", "mp3", "-b:a", "320k", "-y", output_file]
      else
        let fc := (List.range' 1 (files.length - 1)).foldl (chainStep fade_duration) ("", "[0]")
        ["ffmpeg"] ++ files.flatMap (fun f => ["-i", f]) ++
          ["-filter_complex", rstripSemi fc.1, "-map", fc.2,
           "-c:a", "mp3", "-b:a", "320k", "-y", output_file]

/-- `stitch_audio_files` from the file-collection step onward (lines
133-419), with the external effects abstracted: `listing` is the folder's
contents, `dur` the ffprobe oracle, and `producer_tag = some p` a tag path
that exists (line 149 returns `None` otherwise).  Returns `none` exactly
when the collected clip list is empty (lines 141-143: print an error, no
output file); otherwise the ffmpeg argument list that will be run. -/
def stitch_plan (dur : String → ℚ) (listing : List String) (output_file : String)
    (fade_duration silence_duration : ℕ) (producer_tag : Option String) :
    Option (List String) :=
  let audio_files := collectAudioFiles listing
  if audio_files.isEmpty then none
  else
    some (build_ffmpeg_cmd dur (audio_files.mergeSort (fun a b => a ≤ b))
      output_file fade_duration silence_duration producer_tag)

/-- Concrete duration oracle for the spec's worked example: clips of
durations 100, 120 and 90 seconds. -/
def dur3 : String → ℚ :=
  fun x => if x = "a.mp3" then 100 else if x = "b.mp3" then 120 else 90

/-! ### Basic lemmas about `calcLoop` -/

lemma calcLoop_length (dur : String → ℚ) (f s : ℚ) :
    ∀ (files : List String) (t : ℚ), (calcLoop dur f s files t).length = files.length
  | [], _ => rfl
  | _ :: rest, t => by
    simp [calcLoop, calcLoop_length dur f s rest]

lemma calcLoop_getElem_start (dur : String → ℚ) (f s : ℚ) :
    ∀ (files : List String) (t : ℚ) (i : ℕ) (h : i < (calcLoop dur f s files t).length),
      (calcLoop dur f s files t)[i].start_time
        = t + (((files.take i).map dur).sum - i * f + i * s)
  | [], _, i, h => by simp [calcLoop] at h
  | f0 :: rest, t, 0, h => by simp [calcLoop]
  | f0 :: rest, t, i + 1, h => by
    have h' : i < (calcLoop dur f s rest (t + (dur f0 - f + s))).length := by
      simpa [calcLoop] using h
    have ih := calcLoop_getElem_start dur f s rest (t + (dur f0 - f + s)) i h'
    simp only [calcLoop, List.getElem_cons_succ, List.take_succ_cons, List.map_cons,
      List.sum_cons] at ih ⊢
    rw [ih]
    push_cast
    ring

lemma calcLoop_shift (dur : String → ℚ) (f s c : ℚ) :
    ∀ (files : List String) (t : ℚ),
      calcLoop dur f s files (c + t)
        = (calcLoop dur f s files t).map
            (fun e => { e with start_time := c + e.start_time })
  | [], _ => rfl
  | f0 :: rest, t => by
    simp only [calcLoop, List.map_cons]
    refine congrArg₂ _ rfl ?_
    rw [add_assoc]
    exact calcLoop_shift dur f s c rest (t + (dur f0 - f + s))

example : extract_song_title "songs/a.mp3" = "A" := by decide
example : extract_song_title "producer_tag.mp3" = "Producer Tag" := by decide
example : format_timestamp 95 = "01:35" := by
  norm_num [format_timestamp, pyFloorDiv, pyMod, pyTrunc, Rat.num_ofNat, Rat.den_ofNat,
    Int.fdiv_eq_ediv, Int.tdiv_eq_ediv]
  decide
example : format_timestamp 3700 = "1:01:40" := by
  norm_num [format_timestamp, pyFloorDiv, pyMod, pyTrunc, Rat.num_ofNat, Rat.den_ofNat,
    Int.fdiv_eq_ediv, Int.tdiv_eq_ediv]
  decide
example : format_timestamp 0 = "00:00" := by
  norm_num [format_timestamp, pyFloorDiv, pyMod, pyTrunc, Rat.num_ofNat, Rat.den_ofNat,
    Int.fdiv_eq_ediv, Int.tdiv_eq_ediv]
  decide

/-- C1: with no intro clip, `calculate_timestamps` assigns clip `i`
(0-indexed) the start time `sum(duration[0..i-1]) - i*fade + i*silence`;
for `i = 0` this is the start time 0. -/
theorem C1_start_time_formula (dur : String → ℚ) (files : List String)
    (f s : ℚ) (i : ℕ)
    (h : i < (calculate_timestamps dur files f s none).length) :
    (calculate_timestamps dur files f s none)[i].start_time
      = ((files.take i).map dur).sum - i * f + i * s := by
  have h' : i < (calcLoop dur f s files 0).length := h
  have := calcLoop_getElem_start dur f s files 0 i h'
  simpa [calculate_timestamps] using this

/-- Witness for C1: two clips of duration 100 with fade 5 and silence 6;
clip 1 starts at `100 - 1*5 + 1*6 = 101`. -/
theorem C1_start_time_formula_witness :
    (calculate_timestamps (fun _ => (100 : ℚ)) ["a.mp3", "b.mp3"] 5 6 none)[1].start_time
      = 101 := by
  rw [C1_start_time_formula (fun _ => (100 : ℚ)) ["a.mp3", "b.mp3"] 5 6 1 (by decide)]
  norm_num

/-- C4: running `calculate_timestamps` with an intro clip `p` instead of
none prepends exactly one entry `(start 0, duration dur p, title
"Producer Tag")` and shifts every clip's start time by exactly `dur p`,
leaving durations, titles and files unchanged. -/
theorem C4_intro_shift (dur : String → ℚ) (files : List String) (f s : ℚ)
    (p : String) :
    calculate_timestamps dur files f s (some p)
      = { file := p, title := "Producer Tag", start_time := 0, duration := dur p }
        :: (calculate_timestamps dur files f s none).map
            (fun e => { e with start_time := dur p + e.start_time }) := by
  simp only [calculate_timestamps]
  refine congrArg₂ _ rfl ?_
  have := calcLoop_shift dur f s (dur p) files 0
  simpa using this

/-- C5: when the input folder contains no audio files the stitcher fails
(returns the `None` failure result) before building any command, for every
combination of the other parameters. -/
theorem C5_empty_input_fails (dur : String → ℚ) (listing : List String)
    (out : String) (fade silence : ℕ) (ptag : Option String)
    (h : collectAudioFiles listing = []) :
    stitch_plan dur listing out fade silence ptag = none := by
  simp [stitch_plan, h]

/-- Witness for C5: a folder containing only `notes.txt` yields no audio
files and the stitcher returns the failure result. -/
theorem C5_empty_input_fails_witness :
    stitch_plan (fun _ => 1) ["notes.txt"] "out.mp3" 5 0 none = none :=
  C5_empty_input_fails (fun _ => 1) ["notes.txt"] "out.mp3" 5 0 none (by decide)

/-- C7: a single clip with no intro: with `silence_duration > 0` the
command's filter expression pads the tail with exactly `silence_duration`
seconds (`[0]apad=pad_dur=<silence>[out]`); with `silence_duration = 0`
the command is the pure passthrough with no filter expression at all. -/
theorem C7_single_clip (dur : String → ℚ) (a0 out : String)
    (fade silence : ℕ) :
    (0 < silence →
      build_ffmpeg_cmd dur [a0] out fade silence none
        = ["ffmpeg", "-i", a0,
           "-filter_complex", "[0]apad=pad_dur=" ++ toString silence ++ "[out]",
           "-map", "[out]", "-c:a", "mp3", "-b:a", "320k", "-y", out])
    ∧ (silence = 0 →
      build_ffmpeg_cmd dur [a0] out fade silence none
        = ["ffmpeg", "-i", a0, "-c:a", "mp3", "-b:a", "320k", "-y", out]) := by
  constructor
  · intro h
    simp [build_ffmpeg_cmd, h]
  · intro h
    subst h
    simp [build_ffmpeg_cmd]

/-- Witness for C7 at silence 3 and at silence 0. -/
theorem C7_single_clip_witness :
    build_ffmpeg_cmd (fun _ => 1) ["a.mp3"] "out.mp3" 5 3 none
      = ["ffmpeg", "-i", "a.mp3",
         "-filter_complex", "[0]apad=pad_dur=" ++ toString 3 ++ "[out]",
         "-map", "[out]", "-c:a", "mp3", "-b:a", "320k", "-y", "out.mp3"]
    ∧ build_ffmpeg_cmd (fun _ => 1) ["a.mp3"] "out.mp3" 5 0 none
      = ["ffmpeg", "-i", "a.mp3", "-c:a", "mp3", "-b:a", "320k", "-y", "out.mp3"] :=
  ⟨(C7_single_clip (fun _ => 1) "a.mp3" "out.mp3" 5 3).1 (by decide),
   (C7_single_clip (fun _ => 1) "a.mp3" "out.mp3" 5 0).2 rfl⟩

/-- C8: two clips, no silence, no intro: the whole filter expression is the
single crossfade primitive with `d` equal to the given fade duration. -/
theorem C8_two_clip_crossfade (dur : String → ℚ) (a0 a1 out : String)
    (fade : ℕ) :
    build_ffmpeg_cmd dur [a0, a1] out fade 0 none
      = ["ffmpeg", "-i", a0, "-i", a1,
         "-filter_complex", "[0][1]acrossfade=d=" ++ toString fade,
         "-c:a", "mp3", "-b:a", "320k", "-y", out] := by
  simp [build_ffmpeg_cmd]

/-- C2 (evaluation at the failing input): for three clips of duration 10
with fade 2, silence 1 and no intro, the `adelay` offsets computed for the
filter graph are 11000 and 20000 milliseconds, while the timestamp table
has the clips starting at 0, 9 and 18 seconds: each delay is the start
time plus the fade, times 1000, not the start time times 1000. -/
theorem C2_delay_mismatch :
    noIntroSilenceDelays (fun _ => 10) 2 1 ["a.mp3", "b.mp3", "c.mp3"] 0 0
      = [none, some 11000, some 20000]
    ∧ (calculate_timestamps (fun _ => 10) ["a.mp3", "b.mp3", "c.mp3"] 2 1 none).map
        (fun e => e.start_time) = [0, 9, 18] := by
  constructor
  · norm_num [noIntroSilenceDelays, pyTrunc, Rat.num_ofNat, Rat.den_ofNat,
      Int.tdiv_eq_ediv]
  · norm_num [calculate_timestamps, calcLoop]

/-! ### Chain lemmas for the timeline invariant -/

lemma calcLoop_head?_start (dur : String → ℚ) (f s : ℚ) :
    ∀ (files : List String) (t : ℚ) (e : Entry),
      (calcLoop dur f s files t).head? = some e → e.start_time = t
  | [], _, _, h => by simp [calcLoop] at h
  | f0 :: rest, t, e, h => by
    simp only [calcLoop, List.head?_cons, Option.some.injEq] at h
    rw [← h]

lemma calcLoop_chain_rec (dur : String → ℚ) (f s : ℚ) :
    ∀ (files : List String) (t : ℚ),
      List.Chain' (fun a b => b.start_time = a.start_time + a.duration - f + s)
        (calcLoop dur f s files t)
  | [], _ => List.chain'_nil
  | f0 :: rest, t => by
    rw [calcLoop, List.chain'_cons']
    refine ⟨fun b hb => ?_, calcLoop_chain_rec dur f s rest _⟩
    have := calcLoop_head?_start dur f s rest (t + (dur f0 - f + s)) b hb
    rw [this]
    ring

lemma calcLoop_chain_lt (dur : String → ℚ) (f s : ℚ) :
    ∀ (files : List String), (∀ x ∈ files, f < dur x + s) →
      ∀ (t : ℚ),
        List.Chain' (fun a b => a.start_time < b.start_time)
          (calcLoop dur f s files t)
  | [], _, _ => List.chain'_nil
  | f0 :: rest, hpos, t => by
    rw [calcLoop, List.chain'_cons']
    refine ⟨fun b hb => ?_,
      calcLoop_chain_lt dur f s rest (fun x hx => hpos x (List.mem_cons_of_mem _ hx)) _⟩
    have := calcLoop_head?_start dur f s rest (t + (dur f0 - f + s)) b hb
    rw [this]
    have h0 := hpos f0 (List.mem_cons_self _ _)
    linarith

/-- C3 (counterexample): the timeline is not always strictly increasing:
with two clips of duration 1, fade 5 and silence 0, the second entry starts
at `-4 < 0`. -/
theorem C3_not_strictly_increasing :
    ¬ List.Chain' (fun a b : Entry => a.start_time < b.start_time)
        (calculate_timestamps (fun _ => 1) ["a.mp3", "b.mp3"] 5 0 none) := by
  rw [calculate_timestamps, calcLoop, calcLoop, calcLoop, List.chain'_cons]
  intro h
  have := h.1
  norm_num at this

/-- C3 (amended): provided every clip's duration exceeds
`fade - silence` and the intro clip (when present) has positive duration,
the timeline entries are strictly increasing in start time; and
unconditionally each entry's start time equals the previous entry's start
time plus its duration minus the fade plus the silence — except across the
intro boundary: the intro entry, when present, is first, starts at 0, and
the first clip starts exactly at the intro's duration (the intro is not
faded into). -/
theorem C3_timeline_invariant (dur : String → ℚ) (files : List String)
    (f s : ℚ) (p : String) (ptag : Option String) :
    ((∀ x ∈ files, f < dur x + s) → (∀ q, ptag = some q → 0 < dur q) →
      List.Chain' (fun a b => a.start_time < b.start_time)
        (calculate_timestamps dur files f s ptag))
    ∧ List.Chain' (fun a b => b.start_time = a.start_time + a.duration - f + s)
        (calculate_timestamps dur files f s none)
    ∧ List.Chain' (fun a b => b.start_time = a.start_time + a.duration - f + s)
        ((calculate_timestamps dur files f s (some p)).tail)
    ∧ (calculate_timestamps dur files f s (some p)).head? =
        some { file := p, title := "Producer Tag", start_time := 0, duration := dur p }
    ∧ (files ≠ [] →
        ((calculate_timestamps dur files f s (some p))[1]?).map Entry.start_time
          = some (dur p)) := by
  refine ⟨?_, calcLoop_chain_rec dur f s files 0,
    calcLoop_chain_rec dur f s files (dur p), rfl, ?_⟩
  · intro h1 h2
    match ptag with
    | none => exact calcLoop_chain_lt dur f s files h1 0
    | some q =>
      rw [calculate_timestamps, List.chain'_cons']
      refine ⟨fun b hb => ?_, calcLoop_chain_lt dur f s files h1 _⟩
      have := calcLoop_head?_start dur f s files (dur q) b hb
      rw [this]
      exact h2 q rfl
  · intro hne
    match files with
    | [] => exact absurd rfl hne
    | f0 :: rest => simp [calculate_timestamps, calcLoop]

/-- Witness for C3 (amended): two clips of duration 10, fade 2, silence 1,
intro of duration 10: the timeline is strictly increasing, and the
unconditional conjuncts hold even at the counterexample's unguarded input
(duration 1, fade 5, silence 0). -/
theorem C3_timeline_invariant_witness :
    List.Chain' (fun a b => a.start_time < b.start_time)
      (calculate_timestamps (fun _ => 10) ["a.mp3", "b.mp3"] 2 1 (some "tag.mp3"))
    ∧ List.Chain'
        (fun a b => b.start_time = a.start_time + a.duration - 5 + 0)
        (calculate_timestamps (fun _ => 1) ["a.mp3", "b.mp3"] 5 0 none) :=
  ⟨(C3_timeline_invariant (fun _ => 10) ["a.mp3", "b.mp3"] 2 1 "tag.mp3"
      (some "tag.mp3")).1
    (fun x _ => by norm_num)
    (fun q _ => by norm_num),
   (C3_timeline_invariant (fun _ => 1) ["a.mp3", "b.mp3"] 5 0 "tag.mp3" none).2.1⟩

/-! ### Order-independence of the clip collection -/

lemma collectAudioFiles_perm {l1 l2 : List String} (h : l1.Perm l2) :
    (collectAudioFiles l1).Perm (collectAudioFiles l2) := by
  unfold collectAudioFiles
  induction audio_extensions with
  | nil => simp
  | cons e rest ih =>
    simp only [List.map_cons, List.flatten_cons]
    exact (h.filter _).append ih

lemma sortedAudioFiles_sorted (l : List String) :
    List.Sorted (· ≤ ·) (sortedAudioFiles l) :=
  List.sorted_mergeSort' _

/-- C9: the clip order used for the mix, timestamps and tracklist is the
sorted order of the matched file paths: it is a sorted permutation of the
collected files, and any two enumerations of the same folder contents give
the same ordered clip list and the same stitch plan. -/
theorem C9_order_independence (l1 l2 : List String) (h : l1.Perm l2)
    (dur : String → ℚ) (out : String) (fade silence : ℕ)
    (ptag : Option String) :
    sortedAudioFiles l1 = sortedAudioFiles l2
    ∧ (sortedAudioFiles l1).Perm (collectAudioFiles l1)
    ∧ List.Sorted (· ≤ ·) (sortedAudioFiles l1)
    ∧ stitch_plan dur l1 out fade silence ptag
        = stitch_plan dur l2 out fade silence ptag := by
  have hc := collectAudioFiles_perm h
  have hp : (sortedAudioFiles l1).Perm (sortedAudioFiles l2) :=
    ((List.mergeSort_perm _ _).trans hc).trans (List.mergeSort_perm _ _).symm
  have heq : sortedAudioFiles l1 = sortedAudioFiles l2 :=
    List.eq_of_perm_of_sorted hp (sortedAudioFiles_sorted l1) (sortedAudioFiles_sorted l2)
  refine ⟨heq, List.mergeSort_perm _ _, sortedAudioFiles_sorted l1, ?_⟩
  have hlen : (collectAudioFiles l1).length = (collectAudioFiles l2).length :=
    hc.length_eq
  have hiso : (collectAudioFiles l1).isEmpty = (collectAudioFiles l2).isEmpty := by
    rcases e1 : collectAudioFiles l1 with _ | ⟨a, t⟩ <;>
      rcases e2 : collectAudioFiles l2 with _ | ⟨b, u⟩ <;>
      simp_all
  have heq' := heq
  unfold sortedAudioFiles at heq'
  simp only [stitch_plan]
  rw [hiso, heq']

/-- Witness for C9: two enumerations of the same two files give the same
sorted clip list. -/
theorem C9_order_independence_witness :
    sortedAudioFiles ["b.mp3", "a.mp3"] = sortedAudioFiles ["a.mp3", "b.mp3"] :=
  (C9_order_independence ["b.mp3", "a.mp3"] ["a.mp3", "b.mp3"]
    (List.Perm.swap "a.mp3" "b.mp3" []) (fun _ => 1) "out.mp3" 5 0 none).1

/-! ### The tracklist numbering is keyed on the title string -/

lemma trackLinesFrom_length :
    ∀ (entries : List Entry) (n : ℕ),
      (trackLinesFrom entries n).length = entries.length
  | [], _ => rfl
  | e :: rest, n => by
    by_cases h : e.title = "Producer Tag" <;>
      simp [trackLinesFrom, h, trackLinesFrom_length rest]

lemma trackLinesFrom_getElem :
    ∀ (entries : List Entry) (n i : ℕ) (h : i < entries.length)
      (h' : i < (trackLinesFrom entries n).length),
      (trackLinesFrom entries n)[i]
        = if entries[i].title = "Producer Tag" then
            format_timestamp entries[i].start_time ++ " - Producer Tag"
          else
            format_timestamp entries[i].start_time ++ " - "
              ++ fmt02 ((n + ((entries.take i).filter
                    (fun e => e.title ≠ "Producer Tag")).length : ℕ) : ℤ)
              ++ ". " ++ entries[i].title
  | [], _, i, h, _ => absurd h (by simp)
  | e :: rest, n, 0, h, h' => by
    by_cases he : e.title = "Producer Tag" <;> simp [trackLinesFrom, he]
  | e :: rest, n, i + 1, h, h' => by
    have hr : i < rest.length := by simpa using h
    by_cases he : e.title = "Producer Tag"
    · have h'' : i < (trackLinesFrom rest n).length := by
        rw [trackLinesFrom_length]; exact hr
      have ih := trackLinesFrom_getElem rest n i hr h''
      simp [trackLinesFrom, he, ih]
    · have h'' : i < (trackLinesFrom rest (n + 1)).length := by
        rw [trackLinesFrom_length]; exact hr
      have ih := trackLinesFrom_getElem rest (n + 1) i hr h''
      simp [trackLinesFrom, he, ih]
      by_cases hri : rest[i].title = "Producer Tag"
      · simp [hri]
      · simp only [if_neg hri]
        have harith :
            ((n : ℤ) + 1
                + ((rest.take i).filter (fun e => !decide (e.title = "Producer Tag"))).length)
              = (n : ℤ)
                + (((rest.take i).filter (fun e => !decide (e.title = "Producer Tag"))).length
                    + 1) := by
          omega
        rw [harith]

/-- C10: the tracklist numbering is keyed on the literal title string
`"Producer Tag"`, not on position: a regular clip named
`producer_tag.mp3` gets that exact title, its line is written without a
track number, and the counter skips it — in general line `i` carries the
number `n + (count of earlier entries whose title differs from "Producer
Tag")` when its own title differs, and the bare `"- Producer Tag"` form
otherwise. -/
theorem C10_producer_tag_numbering :
    extract_song_title "producer_tag.mp3" = "Producer Tag"
    ∧ trackLines
        (calculate_timestamps (fun _ => 60) ["a.mp3", "producer_tag.mp3", "b.mp3"]
          0 0 none)
        = ["00:00 - 01. A", "01:00 - Producer Tag", "02:00 - 02. B"]
    ∧ ∀ (entries : List Entry) (n i : ℕ) (h : i < entries.length)
        (h' : i < (trackLinesFrom entries n).length),
        (trackLinesFrom entries n)[i]
          = if entries[i].title = "Producer Tag" then
              format_timestamp entries[i].start_time ++ " - Producer Tag"
            else
              format_timestamp entries[i].start_time ++ " - "
                ++ fmt02 ((n + ((entries.take i).filter
                      (fun e => e.title ≠ "Producer Tag")).length : ℕ) : ℤ)
                ++ ". " ++ entries[i].title := by
  refine ⟨by decide, ?_, trackLinesFrom_getElem⟩
  have t1 : extract_song_title "a.mp3" = "A" := by decide
  have t2 : extract_song_title "producer_tag.mp3" = "Producer Tag" := by decide
  have t3 : extract_song_title "b.mp3" = "B" := by decide
  simp only [trackLines, calculate_timestamps, calcLoop, t1, t2, t3]
  norm_num [trackLinesFrom, format_timestamp, pyFloorDiv, pyMod, pyTrunc,
    Rat.num_ofNat, Rat.den_ofNat, Int.fdiv_eq_ediv, Int.tdiv_eq_ediv]
  decide

/-! ### `pyFloorDiv`, `pyTrunc` and `pyMod` agree with floor arithmetic -/

lemma pyFloorDiv_eq_floor (a b : ℚ) (hb : 0 < b) : pyFloorDiv a b = ⌊a / b⌋ := by
  have hbnum : 0 < b.num := Rat.num_pos.2 hb
  have hden : (0:ℤ) < (a.den : ℤ) := Int.natCast_pos.2 a.den_pos
  have hbden : ((b.den : ℚ)) ≠ 0 := by
    exact_mod_cast b.den_pos.ne'
  have haden : ((a.den : ℚ)) ≠ 0 := by
    exact_mod_cast a.den_pos.ne'
  have hbne : b ≠ 0 := ne_of_gt hb
  have hdpos : (0:ℤ) < (a.den : ℤ) * b.num := mul_pos hden hbnum
  have hdq : (((a.den : ℤ) * b.num : ℤ) : ℚ) ≠ 0 := by
    exact_mod_cast hdpos.ne'
  have e1 : (a.den : ℚ) * a = (a.num : ℚ) := by
    nth_rewrite 2 [← Rat.num_div_den a]
    rw [mul_comm, div_mul_cancel₀ _ haden]
  have e2 : (b.den : ℚ) * b = (b.num : ℚ) := by
    nth_rewrite 2 [← Rat.num_div_den b]
    rw [mul_comm, div_mul_cancel₀ _ hbden]
  have hcast : a / b = ((a.num * (b.den : ℤ) : ℤ) : ℚ) / (((a.den : ℤ) * b.num : ℤ) : ℚ) := by
    rw [div_eq_div_iff hbne hdq]
    push_cast
    linear_combination ((b.num : ℚ)) * e1 - ((a.num : ℚ)) * e2
  have htn : ((((a.den : ℤ) * b.num).toNat : ℕ) : ℤ) = (a.den : ℤ) * b.num :=
    Int.toNat_of_nonneg hdpos.le
  rw [pyFloorDiv, hcast]
  rw [show (((a.den : ℤ) * b.num : ℤ) : ℚ) = ((((a.den : ℤ) * b.num).toNat : ℕ) : ℚ) by
    exact_mod_cast (congrArg (fun z : ℤ => (z : ℚ)) htn).symm]
  rw [Rat.floor_intCast_div_natCast]
  rw [Int.fdiv_eq_ediv _ hdpos.le, htn]

lemma pyTrunc_eq_floor (x : ℚ) (hx : 0 ≤ x) : pyTrunc x = ⌊x⌋ := by
  have h1 : 0 ≤ x.num := Rat.num_nonneg.2 hx
  have h2 : (0:ℤ) ≤ (x.den : ℤ) := Int.natCast_nonneg _
  rw [pyTrunc, Int.tdiv_eq_ediv h1 h2, Rat.floor_def]

lemma pyMod_nonneg (a b : ℚ) (hb : 0 < b) : 0 ≤ pyMod a b := by
  rw [pyMod, pyFloorDiv_eq_floor a b hb]
  have h1 : ((⌊a / b⌋ : ℤ) : ℚ) ≤ a / b := Int.floor_le _
  have h2 : b * ((⌊a / b⌋ : ℤ) : ℚ) ≤ b * (a / b) :=
    mul_le_mul_of_nonneg_left h1 hb.le
  have h3 : b * (a / b) = a := by
    field_simp
  linarith

lemma pyMod_lt (a b : ℚ) (hb : 0 < b) : pyMod a b < b := by
  rw [pyMod, pyFloorDiv_eq_floor a b hb]
  have h1 : a / b < ((⌊a / b⌋ : ℤ) : ℚ) + 1 := Int.lt_floor_add_one _
  have h2 : b * (a / b) < b * (((⌊a / b⌋ : ℤ) : ℚ) + 1) :=
    mul_lt_mul_of_pos_left h1 hb
  have h3 : b * (a / b) = a := by
    field_simp
  nlinarith

/-- C6: for three clips of durations 100, 120 and 90 with fade 5, silence 0
and no intro, the tracklist lines are exactly `00:00 - 01. A`,
`01:35 - 02. B`, `03:30 - 03. C` (the clips' extracted titles); in general
a start time below 3600 s renders as `MM:SS` with in-range two-digit
minute and second fields, a start time of 3600 s or more renders as
`H:MM:SS` with at least one hour, and an entry titled `"Producer Tag"`
renders as the literal `<timestamp> - Producer Tag` line. -/
theorem C6_tracklist :
    trackLines (calculate_timestamps dur3 ["a.mp3", "b.mp3", "c.mp3"] 5 0 none)
      = ["00:00 - 01. A", "01:35 - 02. B", "03:30 - 03. C"]
    ∧ (∀ q : ℚ, 0 ≤ q → q < 3600 →
        ∃ m sec : ℤ, 0 ≤ m ∧ m < 60 ∧ 0 ≤ sec ∧ sec < 60 ∧
          format_timestamp q = fmt02 m ++ ":" ++ fmt02 sec)
    ∧ (∀ q : ℚ, 3600 ≤ q →
        ∃ hr m sec : ℤ, 1 ≤ hr ∧ 0 ≤ m ∧ m < 60 ∧ 0 ≤ sec ∧ sec < 60 ∧
          format_timestamp q = toString hr ++ ":" ++ fmt02 m ++ ":" ++ fmt02 sec)
    ∧ (∀ (e : Entry) (rest : List Entry) (n : ℕ), e.title = "Producer Tag" →
        trackLinesFrom (e :: rest) n
          = (format_timestamp e.start_time ++ " - Producer Tag")
            :: trackLinesFrom rest n) := by
  have h60 : (0:ℚ) < 60 := by norm_num
  refine ⟨?_, ?_, ?_, ?_⟩
  · have t1 : extract_song_title "a.mp3" = "A" := by decide
    have t2 : extract_song_title "b.mp3" = "B" := by decide
    have t3 : extract_song_title "c.mp3" = "C" := by decide
    have d1 : dur3 "a.mp3" = 100 := by decide
    have d2 : dur3 "b.mp3" = 120 := by decide
    have d3 : dur3 "c.mp3" = 90 := by decide
    simp only [trackLines, calculate_timestamps, calcLoop, d1, d2, d3, t1, t2, t3]
    norm_num [trackLinesFrom, format_timestamp, pyFloorDiv, pyMod, pyTrunc,
      Rat.num_ofNat, Rat.den_ofNat, Int.fdiv_eq_ediv, Int.tdiv_eq_ediv]
    decide
  · intro q h0 h36
    refine ⟨pyFloorDiv q 60, pyTrunc (pyMod q 60), ?_, ?_, ?_, ?_, ?_⟩
    · rw [pyFloorDiv_eq_floor q 60 h60]
      exact Int.le_floor.2 (by positivity)
    · rw [pyFloorDiv_eq_floor q 60 h60]
      refine Int.floor_lt.2 ?_
      rw [div_lt_iff₀ h60]
      push_cast
      linarith
    · rw [pyTrunc_eq_floor _ (pyMod_nonneg q 60 h60)]
      exact Int.le_floor.2 (by exact_mod_cast pyMod_nonneg q 60 h60)
    · rw [pyTrunc_eq_floor _ (pyMod_nonneg q 60 h60)]
      refine Int.floor_lt.2 ?_
      have := pyMod_lt q 60 h60
      push_cast
      linarith
    · simp only [format_timestamp]
      rw [if_neg (not_le.2 h36)]
  · intro q h36
    have h3600 : (0:ℚ) < 3600 := by norm_num
    refine ⟨pyFloorDiv q 3600, pyFloorDiv (pyMod q 3600) 60, pyTrunc (pyMod q 60),
      ?_, ?_, ?_, ?_, ?_, ?_⟩
    · rw [pyFloorDiv_eq_floor q 3600 h3600]
      refine Int.le_floor.2 ?_
      rw [le_div_iff₀ h3600]
      push_cast
      linarith
    · rw [pyFloorDiv_eq_floor _ 60 h60]
      refine Int.le_floor.2 ?_
      push_cast
      exact div_nonneg (pyMod_nonneg q 3600 h3600) h60.le
    · rw [pyFloorDiv_eq_floor _ 60 h60]
      refine Int.floor_lt.2 ?_
      rw [div_lt_iff₀ h60]
      have := pyMod_lt q 3600 h3600
      push_cast
      linarith
    · rw [pyTrunc_eq_floor _ (pyMod_nonneg q 60 h60)]
      exact Int.le_floor.2 (by exact_mod_cast pyMod_nonneg q 60 h60)
    · rw [pyTrunc_eq_floor _ (pyMod_nonneg q 60 h60)]
      refine Int.floor_lt.2 ?_
      have := pyMod_lt q 60 h60
      push_cast
      linarith
    · simp only [format_timestamp]
      rw [if_pos h36]
  · intro e rest n h
    simp [trackLinesFrom, h]

/-- Witness for C6: the second tracklist timestamp, 95 seconds, is an
in-range `MM:SS` rendering. -/
theorem C6_tracklist_witness :
    ∃ m sec : ℤ, 0 ≤ m ∧ m < 60 ∧ 0 ≤ sec ∧ sec < 60 ∧
      format_timestamp 95 = fmt02 m ++ ":" ++ fmt02 sec :=
  C6_tracklist.2.1 95 (by norm_num) (by norm_num)

/-- Witness for C10: in a three-entry list whose middle entry is titled
`"Producer Tag"`, the third line is numbered 02. -/
theorem C10_producer_tag_numbering_witness :
    (trackLinesFrom
        [{ file := "x", title := "T", start_time := 0, duration := 1 },
         { file := "y", title := "Producer Tag", start_time := 5, duration := 1 },
         { file := "z", title := "U", start_time := 10, duration := 1 }] 1)[2]?
      = some "00:10 - 02. U" := by
  have h : 2 < ([{ file := "x", title := "T", start_time := 0, duration := 1 },
      { file := "y", title := "Producer Tag", start_time := 5, duration := 1 },
      { file := "z", title := "U", start_time := 10, duration := 1 }] : List Entry).length := by
    norm_num
  have h' : 2 < (trackLinesFrom
      [{ file := "x", title := "T", start_time := 0, duration := 1 },
       { file := "y", title := "Producer Tag", start_time := 5, duration := 1 },
       { file := "z", title := "U", start_time := 10, duration := 1 }] 1).length := by
    rw [trackLinesFrom_length]
    norm_num
  have key := C10_producer_tag_numbering.2.2
    [{ file := "x", title := "T", start_time := 0, duration := 1 },
     { file := "y", title := "Producer Tag", start_time := 5, duration := 1 },
     { file := "z", title := "U", start_time := 10, duration := 1 }] 1 2 h h'
  rw [List.getElem?_eq_getElem h', key]
  norm_num [format_timestamp, pyFloorDiv, pyMod, pyTrunc,
    Rat.num_ofNat, Rat.den_ofNat, Int.fdiv_eq_ediv, Int.tdiv_eq_ediv]
  decide

end AudioStitcher
